import Mathlib

/-!
Verification development for the interview-room session core of the
video-interview-bot repository.

The canonical photo-capture interview room (`src/unnamed/part_000`) is a React
component whose state we embed as an explicit record `RoomState`; its event
handlers (`loadQuestions`, `stopListening`, `handleNext`, `capturePhoto`,
`toggleVideo`, `toggleMic`, `finishInterview`, the auto-capture timer bodies)
become pure state-transition functions.  External effects are passed in as
explicit parameters: the outcome of the question fetch, the frame returned by
`captureFrame`, the authenticated user, and the per-photo upload/signed-URL
outcomes.  Calls to `onComplete`, upload attempts and `finishInterview`
invocations are recorded in the state so that temporal claims about them can be
stated.

React closure semantics are modelled faithfully where they matter: the
auto-capture timer callbacks armed in `scheduleAutoCaptures` close over the
`capturedPhotos` value of the render in which `startMedia` ran, so the timer
body receives that snapshot length as an explicit argument, while a manual
capture (the `onCapturePhoto` button of the current render) reads the current
length.  The state update `setCapturedPhotos(prev => [...prev, photoData])` is
a functional update on the current state in both cases.

The video-recording variant (`src/src/components/InterviewRoom.tsx`) is
embedded only where a claim compares the two variants (the `progress`
computation).
-/

/-- One slot of the `responses` array: `{question, answer}`
(`src/unnamed/part_000` line 25). -/
structure InterviewResponse where
  question : String
  answer : String
  deriving Repr, DecidableEq

/-- A hardware media track.  `enabled` is the flag flipped by the toggles,
`stopped` records that `track.stop()` was called on it. -/
structure MediaTrack where
  isVideo : Bool
  enabled : Bool
  stopped : Bool
  deriving Repr, DecidableEq

/-- The payload passed to the `onComplete` callback
(`src/unnamed/part_000` lines 14-18): `{questions, responses, videoUrl}`. -/
structure CompletionPayload where
  questions : List String
  responses : List InterviewResponse
  videoUrl : Option String
  deriving Repr, DecidableEq

/-- The state of the photo-capture `InterviewRoom` component
(`src/unnamed/part_000` lines 22-37), plus observation fields:
`finishCount` counts invocations of `finishInterview`, `onCompleteCalls`
records every payload passed to `onComplete`, `uploadAttempts` records every
storage path for which an upload was attempted, and `lastPhotoUrls` holds the
final value of the local `photoUrls` list of the most recent
`finishInterview` run (observable through the success toast and the
`videoUrl` it derives). -/
structure RoomState where
  isLoading : Bool
  questions : List String
  currentQuestionIndex : Nat
  responses : List InterviewResponse
  isSpeaking : Bool
  isListening : Bool
  currentAnswer : String
  videoEnabled : Bool
  micEnabled : Bool
  hasSpoken : Bool
  capturedPhotos : List String
  streamRef : Option (List MediaTrack)
  recognitionActive : Bool
  finishCount : Nat
  onCompleteCalls : List CompletionPayload
  uploadAttempts : List String
  lastPhotoUrls : List String
  deriving Repr, DecidableEq

/-- Outcome of one photo's `supabase.storage.upload` call followed by the
`createSignedUrl` request (`src/unnamed/part_000` lines 291-310): the upload
either errors, or succeeds and the signed-URL request yields `some url` or
nothing. -/
inductive UploadOutcome where
  | failed
  | stored (signedUrl : Option String)
  deriving Repr, DecidableEq

/-- The external collaborators consulted by `finishInterview`:
the authenticated user (`supabase.auth.getUser`), the candidate name prop,
`Date.now()` at the i-th loop iteration, and the storage outcome for the
i-th photo. -/
structure FinishEnv where
  auth : Option String
  candidateName : String
  tsAt : Nat → Nat
  outcome : Nat → UploadOutcome

/-- JavaScript array element assignment `l[i] = v`: for `i` inside the array
it replaces the element, for `i` past the end it extends the array to length
`i + 1` (the intermediate holes are modelled by `hole`).  This is the
semantics of `updated[currentQuestionIndex] = {...}` in `stopListening`. -/
def jsArraySet {α : Type} (hole : α) (l : List α) (i : Nat) (v : α) : List α :=
  if i < l.length then l.set i v
  else l ++ (List.replicate (i - l.length) hole ++ [v])

/-- The component's initial state (`useState` initialisers,
`src/unnamed/part_000` lines 22-37). -/
def initRoom : RoomState where
  isLoading := true
  questions := []
  currentQuestionIndex := 0
  responses := []
  isSpeaking := false
  isListening := false
  currentAnswer := ""
  videoEnabled := false
  micEnabled := false
  hasSpoken := false
  capturedPhotos := []
  streamRef := none
  recognitionActive := false
  finishCount := 0
  onCompleteCalls := []
  uploadAttempts := []
  lastPhotoUrls := []

/-- `loadQuestions` (`src/unnamed/part_000` lines 48-66).  The argument is the
outcome of the `supabase.functions.invoke` call: on success the question list
is stored and `responses` is initialised to one empty-answer pair per
question; on a transport error the catch branch only shows a toast and the
finally branch clears `isLoading` — questions and responses are left
untouched. -/
def loadQuestions (result : Except Unit (List String)) (s : RoomState) : RoomState :=
  match result with
  | Except.ok qs =>
      { s with questions := qs
               responses := qs.map (fun q => ⟨q, ""⟩)
               isLoading := false }
  | Except.error _ => { s with isLoading := false }

/-- Server-side category sanitisation
(`src/supabase/functions/interview-ai/index.ts` line 81):
`category.replace(/[<>{}]/g, '').substring(0, 50)`. -/
def sanitizeCategory (category : String) : String :=
  String.mk ((category.toList.filter
    (fun c => c != Char.ofNat 60 && c != Char.ofNat 62 &&
              c != Char.ofNat 123 && c != Char.ofNat 125)).take 50)

/-- The fixed deterministic template question set used by the edge function
when the AI response cannot be parsed
(`src/supabase/functions/interview-ai/index.ts` lines 205-212). -/
def templateQuestions (c : String) : List String :=
  ["What are the core concepts of " ++ c ++ "?",
   "Explain a challenging " ++ c ++ " problem you\x27ve solved.",
   "How do you handle debugging in " ++ c ++ "?",
   "What best practices do you follow in " ++ c ++ "?",
   "Describe a " ++ c ++ " project you\x27re proud of."]

/-- The `generate_questions` result produced by the edge function after the
AI gateway replied (`src/supabase/functions/interview-ai/index.ts`
lines 189-222): `parsed` is `some qs` when `JSON.parse` of the cleaned AI
content succeeded, `none` when it threw, in which case the template set for
the sanitised category is returned. -/
def generateQuestionsResult (category : String) (parsed : Option (List String)) :
    List String :=
  match parsed with
  | some qs => qs
  | none => templateQuestions (sanitizeCategory category)

/-- One pass of `candidateName.replace(/\s+/g, "-")`: every maximal run of
whitespace characters is replaced by a single dash.  The boolean argument
records whether the previous character belonged to a whitespace run. -/
def collapseWs : Bool → List Char → List Char
  | _, [] => []
  | prevWs, c :: rest =>
      if c.isWhitespace then
        (if prevWs then [] else ['-']) ++ collapseWs true rest
      else
        c :: collapseWs false rest

/-- `candidateName.replace(/\s+/g, "-")` (`src/unnamed/part_000` line 289). -/
def sanitizeName (name : String) : String :=
  String.mk (collapseWs false name.toList)

/-- The storage path built for the i-th photo (`src/unnamed/part_000`
line 289):
`${user.id}/interview-${candidateName.replace(/\s+/g,"-")}-${Date.now()}-photo${i+1}.jpg`. -/
def photoFileName (uid name : String) (ts : Nat) (i : Nat) : String :=
  uid ++ "/" ++ ("interview-" ++ sanitizeName name ++ "-" ++ toString ts ++
    "-photo" ++ toString (i + 1) ++ ".jpg")

/-- The signed URL obtained for photo `i`, if its upload succeeded and the
signed-URL request returned one. -/
def urlOf (outcome : Nat → UploadOutcome) (i : Nat) : Option String :=
  match outcome i with
  | UploadOutcome.stored (some u) => some u
  | _ => none

/-- The upload loop of `finishInterview` (`src/unnamed/part_000`
lines 276-311) over a list of photo indices.  Returns the list of storage
paths for which an upload was attempted and the list of signed URLs pushed to
`photoUrls`.  A failed upload `continue`s (its path was attempted, no URL is
collected) and a missing signed URL is simply not pushed. -/
def processUploads (uid name : String) (tsAt : Nat → Nat)
    (outcome : Nat → UploadOutcome) : List Nat → List String × List String
  | [] => ([], [])
  | i :: rest =>
      let r := processUploads uid name tsAt outcome rest
      let path := photoFileName uid name (tsAt i) i
      match outcome i with
      | UploadOutcome.failed => (path :: r.1, r.2)
      | UploadOutcome.stored none => (path :: r.1, r.2)
      | UploadOutcome.stored (some u) => (path :: r.1, u :: r.2)

/-- `finishInterview` (`src/unnamed/part_000` lines 253-326).  It stops every
track of the live stream (the ref itself is NOT cleared), clears the
auto-capture timers, and then: with no captured photos it calls `onComplete`
with a null `videoUrl`; with photos but no authenticated user it calls
`onComplete` with a null `videoUrl` and returns before any upload; otherwise
it runs the upload loop and passes the first collected signed URL
(`photoUrls[0]`, `none` when the list is empty) as `videoUrl`. -/
def finishInterview (env : FinishEnv) (s : RoomState) : RoomState :=
  let s1 : RoomState :=
    { s with streamRef := s.streamRef.map (fun tracks =>
               tracks.map (fun t => { t with stopped := true }))
             finishCount := s.finishCount + 1 }
  if 0 < s1.capturedPhotos.length then
    match env.auth with
    | none =>
        { s1 with lastPhotoUrls := []
                  onCompleteCalls := s1.onCompleteCalls ++
                    [⟨s1.questions, s1.responses, none⟩] }
    | some uid =>
        let processed := processUploads uid env.candidateName env.tsAt env.outcome
          (List.range s1.capturedPhotos.length)
        { s1 with uploadAttempts := s1.uploadAttempts ++ processed.1
                  lastPhotoUrls := processed.2
                  onCompleteCalls := s1.onCompleteCalls ++
                    [⟨s1.questions, s1.responses, processed.2.head?⟩] }
  else
    { s1 with lastPhotoUrls := []
              onCompleteCalls := s1.onCompleteCalls ++
                [⟨s1.questions, s1.responses, none⟩] }

/-- `startListening` (`src/unnamed/part_000` lines 177-219): with no
speech-recognition capability it only shows a toast; otherwise it creates a
recognition session and starts it (`isListening` is set by the `onstart`
callback). -/
def startListening (supported : Bool) (s : RoomState) : RoomState :=
  if supported then { s with recognitionActive := true, isListening := true }
  else s

/-- `stopListening` (`src/unnamed/part_000` lines 222-237): stops the active
recognition session if one exists, clears `isListening`, and unconditionally
commits `currentAnswer` into `responses[currentQuestionIndex]` together with
the current question text (`questions[currentQuestionIndex]`, modelled by
`getD` with `""` standing for the `undefined` read past the end of an empty
question list). -/
def stopListening (s : RoomState) : RoomState :=
  { s with recognitionActive := false
           isListening := false
           responses := jsArraySet ⟨"", ""⟩ s.responses s.currentQuestionIndex
             ⟨s.questions.getD s.currentQuestionIndex "", s.currentAnswer⟩ }

/-- `handleNext` (`src/unnamed/part_000` lines 240-250): stop listening
(committing the answer), reset `hasSpoken` and `currentAnswer`, then either
increment `currentQuestionIndex` or, at the last question, run
`finishInterview`.  Note the JS comparison `currentQuestionIndex <
questions.length - 1` agrees with the truncated Nat subtraction used here for
every index and length. -/
def handleNext (env : FinishEnv) (s : RoomState) : RoomState :=
  let s1 := stopListening s
  let s2 := { s1 with hasSpoken := false, currentAnswer := "" }
  if s2.currentQuestionIndex < s2.questions.length - 1 then
    { s2 with currentQuestionIndex := s2.currentQuestionIndex + 1 }
  else
    finishInterview env s2

/-- `capturePhoto` (`src/unnamed/part_000` lines 123-135).  `closureLen` is
the `capturedPhotos.length` captured by the `useCallback` closure of the
render that produced this instance of the function; `frame` is the result of
`videoPreviewRef.current.captureFrame()` (`none` also covers a missing
preview ref or a null frame).  The append itself is the functional update
`setCapturedPhotos(prev => [...prev, photoData])` on the CURRENT state. -/
def capturePhoto (closureLen : Nat) (frame : Option String) (s : RoomState) :
    RoomState :=
  if 3 ≤ closureLen then s
  else
    match frame with
    | some photoData => { s with capturedPhotos := s.capturedPhotos ++ [photoData] }
    | none => s

/-- The body of one auto-capture timer armed by `scheduleAutoCaptures`
(`src/unnamed/part_000` lines 107-120).  Both the guard
`capturedPhotos.length < 3` and the `capturePhoto` closure it invokes were
captured at scheduling time, i.e. in the render in which `startMedia` ran, so
they share one snapshot length `snapshotLen`; in every execution of the code
that snapshot is `0`, because the timers are armed before any capture is
possible. -/
def autoCaptureTimerFire (snapshotLen : Nat) (frame : Option String)
    (s : RoomState) : RoomState :=
  if snapshotLen < 3 then capturePhoto snapshotLen frame s else s

/-- `toggleVideo` (`src/unnamed/part_000` lines 138-143): guarded only by
`streamRef.current` being non-null; sets every video track's `enabled` to
`!videoEnabled` and flips the flag. -/
def toggleVideo (s : RoomState) : RoomState :=
  match s.streamRef with
  | none => s
  | some tracks =>
      { s with streamRef := some (tracks.map (fun t =>
                 if t.isVideo then { t with enabled := !s.videoEnabled } else t))
               videoEnabled := !s.videoEnabled }

/-- `toggleMic` (`src/unnamed/part_000` lines 146-151), same shape as
`toggleVideo` on the audio tracks. -/
def toggleMic (s : RoomState) : RoomState :=
  match s.streamRef with
  | none => s
  | some tracks =>
      { s with streamRef := some (tracks.map (fun t =>
                 if t.isVideo then t else { t with enabled := !s.micEnabled }))
               micEnabled := !s.micEnabled }

/-- An interleavable event of the running session: the user stopping a
listening turn, advancing, speech-synthesis completion, a recognition result
updating `currentAnswer`, starting to listen, a manual capture click, an
auto-capture timer firing, and the two toggles. -/
inductive RoomOp where
  | stopL
  | next (env : FinishEnv)
  | speakEnd
  | setAnswer (a : String)
  | startListen (supported : Bool)
  | manualCapture (frame : Option String)
  | timerFire (snapshotLen : Nat) (frame : Option String)
  | toggleV
  | toggleM

/-- One step of the event system.  A manual capture uses the fresh
`capturePhoto` closure of the current render (current length); a timer fire
uses the snapshot it was armed with. -/
def stepRoom (s : RoomState) : RoomOp → RoomState
  | RoomOp.stopL => stopListening s
  | RoomOp.next env => handleNext env s
  | RoomOp.speakEnd => { s with isSpeaking := false, hasSpoken := true }
  | RoomOp.setAnswer a => { s with currentAnswer := a }
  | RoomOp.startListen supported => startListening supported s
  | RoomOp.manualCapture frame => capturePhoto s.capturedPhotos.length frame s
  | RoomOp.timerFire snapshotLen frame => autoCaptureTimerFire snapshotLen frame s
  | RoomOp.toggleV => toggleVideo s
  | RoomOp.toggleM => toggleMic s

/-- Run a sequence of events. -/
def runRoom (s : RoomState) : List RoomOp → RoomState
  | [] => s
  | op :: rest => runRoom (stepRoom s op) rest

/-- The `progress` computation of the canonical photo-capture variant
(`src/unnamed/part_000` line 328):
`questions.length > 0 ? ((currentQuestionIndex + 1) / questions.length) * 100 : 0`. -/
def progress (numQuestions currentQuestionIndex : Nat) : ℚ :=
  if 0 < numQuestions then
    (((currentQuestionIndex : ℚ) + 1) / (numQuestions : ℚ)) * 100
  else 0

/-- JavaScript division restricted to finite results: a zero divisor yields
`Infinity`/`NaN`, i.e. no finite number, modelled as `none`. -/
def jsFiniteDiv (a b : ℚ) : Option ℚ :=
  if b = 0 then none else some (a / b)

/-- The `progress` computation of the video-recording variant
(`src/src/components/InterviewRoom.tsx` line 311):
`((currentQuestionIndex + 1) / questions.length) * 100`, with no guard on an
empty question list. -/
def progressVideoVariant (numQuestions currentQuestionIndex : Nat) : Option ℚ :=
  (jsFiniteDiv ((currentQuestionIndex : ℚ) + 1) (numQuestions : ℚ)).map
    (fun x => x * 100)

/-- The session invariant of claim C3, relative to the loaded question list
`qs`: the question list is never mutated, `responses` keeps the same length,
and the index stays inside the list. -/
def SessionInv (qs : List String) (s : RoomState) : Prop :=
  s.questions = qs ∧ s.responses.length = qs.length ∧
    s.currentQuestionIndex < qs.length

/-- A finish environment with no authenticated user. -/
def envNoAuth : FinishEnv where
  auth := none
  candidateName := "Jo"
  tsAt := fun _ => 0
  outcome := fun _ => UploadOutcome.failed

/-- A finish environment whose user is `u1`, whose first upload fails and
whose second succeeds with signed URL `urlB`. -/
def envAuthU1 : FinishEnv where
  auth := some "u1"
  candidateName := "Al Bo"
  tsAt := fun i => 100 + i
  outcome := fun i => if i == 0 then UploadOutcome.failed
             else UploadOutcome.stored (some "urlB")

/-- A session whose question load returned a single question. -/
def roomOneQuestion : RoomState :=
  loadQuestions (Except.ok ["Only question?"]) initRoom

/-- A session holding a live stream with one video and one audio track. -/
def roomWithStream : RoomState :=
  { initRoom with streamRef := some [⟨true, true, false⟩, ⟨false, true, false⟩]
                  videoEnabled := true
                  micEnabled := true }

/-- A session that captured two photos. -/
def roomTwoPhotos : RoomState :=
  { initRoom with capturedPhotos := ["pA", "pB"] }

/-- The interleaving of claim C1's failing input: the user captures three
photos manually (a fourth manual click is refused by the fresh closure's cap
check), then the three auto-capture timers fire, each carrying the snapshot
length 0 they were armed with in `startMedia`. -/
def c1Trace : List RoomOp :=
  [RoomOp.manualCapture (some "p1"), RoomOp.manualCapture (some "p2"),
   RoomOp.manualCapture (some "p3"), RoomOp.manualCapture (some "p4"),
   RoomOp.timerFire 0 (some "p5"), RoomOp.timerFire 0 (some "p6"),
   RoomOp.timerFire 0 (some "p7")]

/-! ## Helper lemmas about the JavaScript array-assignment model -/

theorem jsArraySet_length {α : Type} (hole : α) (l : List α) (i : Nat) (v : α) :
    (jsArraySet hole l i v).length = if i < l.length then l.length else i + 1 := by
  unfold jsArraySet
  by_cases h : i < l.length
  · simp [h]
  · simp [h]
    omega

theorem lt_jsArraySet_length {α : Type} (hole : α) (l : List α) (i : Nat) (v : α) :
    i < (jsArraySet hole l i v).length := by
  rw [jsArraySet_length]
  split <;> omega

theorem jsArraySet_getElem_self {α : Type} (hole : α) (l : List α) (i : Nat) (v : α) :
    (jsArraySet hole l i v)[i]? = some v := by
  unfold jsArraySet
  by_cases h : i < l.length
  · rw [if_pos h]
    exact List.getElem?_set_eq_of_lt v h
  · rw [if_neg h]
    have h1 : l.length ≤ i := Nat.le_of_not_lt h
    rw [List.getElem?_append_right h1,
        List.getElem?_append_right (by simp)]
    simp

theorem set_getElem_self {α : Type} (l : List α) : ∀ (i : Nat) (v : α),
    l[i]? = some v → l.set i v = l := by
  induction l with
  | nil => intro i v h; simp at h
  | cons a t ih =>
      intro i v h
      cases i with
      | zero =>
          simp at h
          simp [h]
      | succ n =>
          simp at h
          simp [List.set]
          exact ih n v h

theorem jsArraySet_fix {α : Type} (hole : α) (L : List α) (i : Nat) (v : α)
    (h1 : i < L.length) (h2 : L[i]? = some v) : jsArraySet hole L i v = L := by
  unfold jsArraySet
  rw [if_pos h1]
  exact set_getElem_self L i v h2

theorem jsArraySet_idem {α : Type} (hole : α) (l : List α) (i : Nat) (v : α) :
    jsArraySet hole (jsArraySet hole l i v) i v = jsArraySet hole l i v :=
  jsArraySet_fix hole _ i v (lt_jsArraySet_length hole l i v)
    (jsArraySet_getElem_self hole l i v)

/-! ## Helper lemmas about the upload loop and `finishInterview` -/

theorem processUploads_eq (uid name : String) (tsAt : Nat → Nat)
    (outcome : Nat → UploadOutcome) (l : List Nat) :
    processUploads uid name tsAt outcome l =
      (l.map (fun i => photoFileName uid name (tsAt i) i),
       l.filterMap (urlOf outcome)) := by
  induction l with
  | nil => rfl
  | cons i rest ih =>
      cases h : outcome i with
      | failed => simp [processUploads, ih, urlOf, h, List.filterMap_cons]
      | stored u =>
          cases u <;> simp [processUploads, ih, urlOf, h, List.filterMap_cons]

theorem finishInterview_fields (env : FinishEnv) (s : RoomState) :
    (finishInterview env s).questions = s.questions ∧
      (finishInterview env s).responses = s.responses ∧
      (finishInterview env s).currentQuestionIndex = s.currentQuestionIndex ∧
      (finishInterview env s).finishCount = s.finishCount + 1 ∧
      (finishInterview env s).onCompleteCalls.length
        = s.onCompleteCalls.length + 1 := by
  cases henv : env.auth <;>
    by_cases h : 0 < s.capturedPhotos.length <;>
      simp [finishInterview, henv, h]

theorem stopListening_fields (s : RoomState) :
    (stopListening s).questions = s.questions ∧
      (stopListening s).currentQuestionIndex = s.currentQuestionIndex ∧
      (stopListening s).currentAnswer = s.currentAnswer ∧
      (stopListening s).responses
        = jsArraySet ⟨"", ""⟩ s.responses s.currentQuestionIndex
            ⟨s.questions.getD s.currentQuestionIndex "", s.currentAnswer⟩ :=
  ⟨rfl, rfl, rfl, rfl⟩

/-! ## The session invariant of claim C3 -/

theorem stopListening_inv (qs : List String) (s : RoomState)
    (h : SessionInv qs s) : SessionInv qs (stopListening s) := by
  obtain ⟨hq, hr, hi⟩ := h
  have hlt : s.currentQuestionIndex < s.responses.length := by
    rw [hr]; exact hi
  refine ⟨hq, ?_, hi⟩
  have hresp := (stopListening_fields s).2.2.2
  rw [show (stopListening s).responses.length
        = (jsArraySet (⟨"", ""⟩ : InterviewResponse) s.responses
            s.currentQuestionIndex
            ⟨s.questions.getD s.currentQuestionIndex "", s.currentAnswer⟩).length
      from congrArg List.length hresp,
      jsArraySet_length, if_pos hlt]
  exact hr

theorem handleNext_eq (env : FinishEnv) (s : RoomState) :
    handleNext env s =
      if s.currentQuestionIndex < s.questions.length - 1 then
        { stopListening s with
            hasSpoken := false
            currentAnswer := ""
            currentQuestionIndex := s.currentQuestionIndex + 1 }
      else
        finishInterview env
          { stopListening s with hasSpoken := false, currentAnswer := "" } := rfl

theorem handleNext_inv (qs : List String) (hqs : qs ≠ []) (env : FinishEnv)
    (s : RoomState) (h : SessionInv qs s) : SessionInv qs (handleNext env s) := by
  have hpos : 0 < qs.length := List.length_pos.mpr hqs
  have h1 : SessionInv qs (stopListening s) := stopListening_inv qs s h
  obtain ⟨hq1, hr1, hi1⟩ := h1
  rw [handleNext_eq]
  by_cases hc : s.currentQuestionIndex < s.questions.length - 1
  · rw [if_pos hc]
    refine ⟨hq1, hr1, ?_⟩
    show s.currentQuestionIndex + 1 < qs.length
    have hc' : s.currentQuestionIndex < qs.length - 1 := by
      rw [h.1] at hc; exact hc
    omega
  · rw [if_neg hc]
    obtain ⟨f1, f2, f3, -, -⟩ := finishInterview_fields env
      { stopListening s with hasSpoken := false, currentAnswer := "" }
    refine ⟨?_, ?_, ?_⟩
    · rw [f1]; exact hq1
    · rw [f2]; exact hr1
    · rw [f3]; exact hi1

theorem stepRoom_inv (qs : List String) (hqs : qs ≠ []) (s : RoomState)
    (op : RoomOp) (h : SessionInv qs s) : SessionInv qs (stepRoom s op) := by
  obtain ⟨hq, hr, hi⟩ := h
  cases op with
  | stopL => exact stopListening_inv qs s ⟨hq, hr, hi⟩
  | next env => exact handleNext_inv qs hqs env s ⟨hq, hr, hi⟩
  | speakEnd => exact ⟨hq, hr, hi⟩
  | setAnswer a => exact ⟨hq, hr, hi⟩
  | startListen supported =>
      cases supported <;> exact ⟨hq, hr, hi⟩
  | manualCapture frame =>
      refine ⟨?_, ?_, ?_⟩ <;>
        · simp only [stepRoom, capturePhoto]
          split
          · exact (by assumption)
          · cases frame <;> simp <;> assumption
  | timerFire snapshotLen frame =>
      refine ⟨?_, ?_, ?_⟩ <;>
        · simp only [stepRoom, autoCaptureTimerFire, capturePhoto]
          split
          · split
            · exact (by assumption)
            · cases frame <;> simp <;> assumption
          · exact (by assumption)
  | toggleV =>
      cases hs : s.streamRef <;> simp only [stepRoom, toggleVideo, hs] <;>
        exact ⟨hq, hr, hi⟩
  | toggleM =>
      cases hs : s.streamRef <;> simp only [stepRoom, toggleMic, hs] <;>
        exact ⟨hq, hr, hi⟩

theorem runRoom_inv (qs : List String) (hqs : qs ≠ []) :
    ∀ (ops : List RoomOp) (s : RoomState), SessionInv qs s →
      SessionInv qs (runRoom s ops)
  | [], _, h => h
  | op :: rest, s, h =>
      runRoom_inv qs hqs rest _ (stepRoom_inv qs hqs s op h)

theorem loadQuestions_inv (qs : List String) (hqs : qs ≠ []) :
    SessionInv qs (loadQuestions (Except.ok qs) initRoom) :=
  ⟨rfl, by simp [loadQuestions, initRoom], by
    simp [loadQuestions, initRoom]
    exact List.length_pos.mpr hqs⟩

/-! ## Claims -/

/-- Claim C1 (code-bug evaluation).  The claim states that `capturedPhotos`
never exceeds the cap of 3 under any interleaving of scheduled and manual
captures, with the bound enforced at the single append point.  In the code
the cap checks are duplicated per caller and read closure-captured snapshots:
the auto-capture timers were armed while `capturedPhotos` was empty, so each
timer's guard and its `capturePhoto` closure both see length 0.  On the
interleaving `c1Trace` (three manual captures, a refused fourth manual
capture, then the three timer fires) the buffer ends with SIX photos — the
functional append `setCapturedPhotos(prev => [...prev, photoData])` itself is
unguarded. -/
theorem c1_cap_exceeded_on_trace :
    (runRoom initRoom c1Trace).capturedPhotos
        = ["p1", "p2", "p3", "p5", "p6", "p7"] ∧
      (runRoom initRoom c1Trace).capturedPhotos.length = 6 := by
  constructor <;> rfl

/-- Claim C2 (counterexample).  The claim states that an advance call after
the session has completed is a no-op.  In the code `handleNext` has no
completed guard: with one question and the index at the last question,
calling `handleNext` twice runs `finishInterview` twice and invokes
`onComplete` twice. -/
theorem c2_counterexample :
    (handleNext envNoAuth (handleNext envNoAuth roomOneQuestion)).finishCount = 2 ∧
      (handleNext envNoAuth (handleNext envNoAuth roomOneQuestion)).onCompleteCalls.length
        = 2 := by
  constructor <;> rfl

/-- Claim C2 (amended).  Each advance call at the last question triggers the
finish/reconciliation transition exactly once for that call — it runs
`finishInterview` once, invokes `onComplete` once, and does not increment
`currentQuestionIndex` — but the component keeps no completed flag, so a
further advance call repeats the transition rather than being a no-op. -/
theorem c2_amended_finish_per_call (env : FinishEnv) (s : RoomState)
    (h : ¬ s.currentQuestionIndex < s.questions.length - 1) :
    (handleNext env s).finishCount = s.finishCount + 1 ∧
      (handleNext env s).onCompleteCalls.length = s.onCompleteCalls.length + 1 ∧
      (handleNext env s).currentQuestionIndex = s.currentQuestionIndex := by
  rw [handleNext_eq, if_neg h]
  obtain ⟨-, -, f3, f4, f5⟩ := finishInterview_fields env
    { stopListening s with hasSpoken := false, currentAnswer := "" }
  exact ⟨f4, f5, f3⟩

/-- Claim C2 (witness for the amended theorem). -/
theorem c2_witness :
    (handleNext envNoAuth roomOneQuestion).finishCount
        = roomOneQuestion.finishCount + 1 ∧
      (handleNext envNoAuth roomOneQuestion).onCompleteCalls.length
        = roomOneQuestion.onCompleteCalls.length + 1 ∧
      (handleNext envNoAuth roomOneQuestion).currentQuestionIndex
        = roomOneQuestion.currentQuestionIndex :=
  c2_amended_finish_per_call envNoAuth roomOneQuestion (by decide)

/-- Claim C3 (counterexample).  The claim asserts the length invariant for
every session once the question load completes.  When the load yields an
empty question list (a successfully parsed empty array), one `stopListening`
call extends `responses` to length 1 via the JavaScript out-of-bounds array
assignment while `questions` stays empty. -/
theorem c3_counterexample :
    (stopListening (loadQuestions (Except.ok []) initRoom)).responses.length = 1 ∧
      (stopListening (loadQuestions (Except.ok []) initRoom)).questions.length
        = 0 := by
  constructor <;> rfl

/-- Claim C3 (amended).  Provided the loaded question list is nonempty,
`len(responses) = len(questions)` holds immediately after the question load
and is preserved by every subsequent operation of the session — the
`stopListening` commit only overwrites one existing slot, and the question
list itself is never mutated. -/
theorem c3_amended_responses_length (qs : List String) (ops : List RoomOp)
    (hqs : qs ≠ []) :
    (runRoom (loadQuestions (Except.ok qs) initRoom) ops).responses.length
        = (runRoom (loadQuestions (Except.ok qs) initRoom) ops).questions.length
      ∧ (runRoom (loadQuestions (Except.ok qs) initRoom) ops).questions = qs := by
  obtain ⟨hq, hr, -⟩ := runRoom_inv qs hqs ops _ (loadQuestions_inv qs hqs)
  exact ⟨by rw [hq, hr], hq⟩

/-- Claim C3 (witness for the amended theorem). -/
theorem c3_witness :
    (runRoom (loadQuestions (Except.ok ["q1"]) initRoom)
        [RoomOp.stopL, RoomOp.next envNoAuth]).responses.length
      = (runRoom (loadQuestions (Except.ok ["q1"]) initRoom)
        [RoomOp.stopL, RoomOp.next envNoAuth]).questions.length :=
  (c3_amended_responses_length ["q1"] [RoomOp.stopL, RoomOp.next envNoAuth]
    (by decide)).1

/-- Claim C4 (counterexample).  The claim states that ANY failure of the
question-generation request (transport failure or unparsable response) falls
back to the template set.  On a transport failure the client's catch branch
only shows a toast: the question list stays empty and is not the template
set. -/
theorem c4_counterexample :
    (loadQuestions (Except.error ()) initRoom).questions
        ≠ templateQuestions (sanitizeCategory "react") ∧
      (loadQuestions (Except.error ()) initRoom).questions = [] := by
  constructor
  · decide
  · rfl

/-- Claim C4 (amended).  The deterministic template fallback exists only on
the server for an unparsable AI response: `generateQuestionsResult` with a
failed parse returns the fixed 5-question template set for the sanitised
category.  A transport failure of the request is surfaced as a retryable
error on the client and leaves the question list untouched — no template
fallback happens there. -/
theorem c4_amended_fallback (category : String) (s : RoomState) :
    generateQuestionsResult category none
        = templateQuestions (sanitizeCategory category) ∧
      (generateQuestionsResult category none).length = 5 ∧
      (loadQuestions (Except.error ()) s).questions = s.questions :=
  ⟨rfl, rfl, rfl⟩

/-- Claim C5.  During reconciliation, if no authenticated identity is
available, the result payload carries `videoUrl = null`, the collected URL
list is empty, and no artifact upload is attempted — uploads never proceed
unauthenticated (this covers both the early auth-guarded return and the
no-photos path). -/
theorem c5_no_auth_no_upload (s : RoomState) (env : FinishEnv)
    (h : env.auth = none) :
    (finishInterview env s).uploadAttempts = s.uploadAttempts ∧
      (finishInterview env s).lastPhotoUrls = [] ∧
      (finishInterview env s).onCompleteCalls
        = s.onCompleteCalls ++ [⟨s.questions, s.responses, none⟩] := by
  by_cases hp : 0 < s.capturedPhotos.length <;>
    simp [finishInterview, h, hp]

/-- Claim C5 (witness). -/
theorem c5_witness :
    (finishInterview envNoAuth roomTwoPhotos).uploadAttempts
        = roomTwoPhotos.uploadAttempts ∧
      (finishInterview envNoAuth roomTwoPhotos).lastPhotoUrls = [] ∧
      (finishInterview envNoAuth roomTwoPhotos).onCompleteCalls
        = roomTwoPhotos.onCompleteCalls
            ++ [⟨roomTwoPhotos.questions, roomTwoPhotos.responses, none⟩] :=
  c5_no_auth_no_upload roomTwoPhotos envNoAuth rfl

/-- Claim C6.  `stopListening` called twice in succession without an
intervening `startListening` is idempotent on the whole component state: the
second call recomputes the identical `{question, answer}` value from the same
`currentAnswer` accumulator and writes it into the same slot, so
`responses[currentQuestionIndex].answer` is the same both times. -/
theorem c6_stopListening_idempotent (s : RoomState) :
    stopListening (stopListening s) = stopListening s := by
  cases s
  simp [stopListening, jsArraySet_idem]

/-- Claim C7.  With an authenticated identity, `finishInterview` attempts an
upload for every captured artifact independently — each under a storage path
namespaced by the identity (`uid ++ "/" ++ ...`), a single failure being
skipped without aborting the rest — collects every obtained signed URL in the
auxiliary `photoUrls` list, and passes the FIRST obtained signed URL (null if
none) as the payload's `videoUrl`. -/
theorem c7_upload_loop (s : RoomState) (env : FinishEnv) (uid : String)
    (h : env.auth = some uid) :
    (finishInterview env s).uploadAttempts
        = s.uploadAttempts ++ (List.range s.capturedPhotos.length).map
            (fun i => photoFileName uid env.candidateName (env.tsAt i) i) ∧
      (∀ i : Nat, ∃ suffix : String,
        photoFileName uid env.candidateName (env.tsAt i) i
          = uid ++ "/" ++ suffix) ∧
      (finishInterview env s).lastPhotoUrls
        = (List.range s.capturedPhotos.length).filterMap (urlOf env.outcome) ∧
      (finishInterview env s).onCompleteCalls
        = s.onCompleteCalls ++ [⟨s.questions, s.responses,
            ((List.range s.capturedPhotos.length).filterMap
              (urlOf env.outcome)).head?⟩] := by
  have hsuffix : ∀ i : Nat, ∃ suffix : String,
      photoFileName uid env.candidateName (env.tsAt i) i
        = uid ++ "/" ++ suffix := fun i => ⟨_, rfl⟩
  by_cases hp : 0 < s.capturedPhotos.length
  · refine ⟨?_, hsuffix, ?_, ?_⟩ <;>
      simp [finishInterview, h, hp, processUploads_eq]
  · have h0 : s.capturedPhotos.length = 0 := by omega
    refine ⟨?_, hsuffix, ?_, ?_⟩ <;>
      simp [finishInterview, h, hp, h0]

/-- Claim C7 (witness). -/
theorem c7_witness :
    (finishInterview envAuthU1 roomTwoPhotos).lastPhotoUrls
        = (List.range roomTwoPhotos.capturedPhotos.length).filterMap
            (urlOf envAuthU1.outcome) ∧
      (finishInterview envAuthU1 roomTwoPhotos).uploadAttempts
        = roomTwoPhotos.uploadAttempts
            ++ (List.range roomTwoPhotos.capturedPhotos.length).map
              (fun i => photoFileName "u1" envAuthU1.candidateName
                (envAuthU1.tsAt i) i) :=
  ⟨(c7_upload_loop roomTwoPhotos envAuthU1 "u1" rfl).2.2.1,
   (c7_upload_loop roomTwoPhotos envAuthU1 "u1" rfl).1⟩

/-- Claim C8 (counterexample).  The claim states that toggling after teardown
is a no-op.  `finishInterview` stops every track but never clears the stream
ref, so after teardown `toggleVideo` still flips `videoEnabled`. -/
theorem c8_counterexample :
    (toggleVideo (finishInterview envNoAuth roomWithStream)).videoEnabled
        ≠ (finishInterview envNoAuth roomWithStream).videoEnabled ∧
      (finishInterview envNoAuth roomWithStream).streamRef
        = some [⟨true, true, true⟩, ⟨false, true, true⟩] := by
  constructor
  · decide
  · rfl

/-- Claim C8 (amended).  `toggleVideo`/`toggleMic` are no-ops exactly when no
stream was ever acquired (null stream ref); whenever the ref is set they flip
the corresponding enabled flag — and since `finishInterview` stops the tracks
but leaves the ref set, the flags remain togglable after teardown. -/
theorem c8_amended_toggle_guard (s : RoomState) :
    (s.streamRef = none → toggleVideo s = s ∧ toggleMic s = s) ∧
      (s.streamRef.isSome = true →
        (toggleVideo s).videoEnabled = !s.videoEnabled ∧
          (toggleMic s).micEnabled = !s.micEnabled) ∧
      (∀ env : FinishEnv,
        (finishInterview env s).streamRef.isSome = s.streamRef.isSome) := by
  refine ⟨?_, ?_, ?_⟩
  · intro h
    constructor <;> simp [toggleVideo, toggleMic, h]
  · intro h
    cases hs : s.streamRef with
    | none => rw [hs] at h; simp at h
    | some tracks => constructor <;> simp [toggleVideo, toggleMic, hs]
  · intro env
    by_cases hp : 0 < s.capturedPhotos.length <;>
      cases henv : env.auth <;>
        cases hs : s.streamRef <;>
          simp [finishInterview, hp, henv, hs]

/-- Claim C8 (witness for the amended theorem). -/
theorem c8_witness :
    toggleVideo initRoom = initRoom ∧
      (toggleVideo roomWithStream).videoEnabled
        = !roomWithStream.videoEnabled :=
  ⟨((c8_amended_toggle_guard initRoom).1 rfl).1,
   ((c8_amended_toggle_guard roomWithStream).2.1 rfl).1⟩

/-- Claim C9.  The answer commit in `stopListening` is not guarded by a
was-listening check: advancing a question on which listening never started
(`isListening` false, no active recognition session, `currentAnswer` still
the initial empty string) still writes `{question, ""}` into the current
question's response slot. -/
theorem c9_commit_unconditional (s : RoomState) (env : FinishEnv)
    (h1 : s.isListening = false) (h2 : s.recognitionActive = false)
    (h3 : s.currentAnswer = "") :
    (handleNext env s).responses[s.currentQuestionIndex]?
        = some ⟨s.questions.getD s.currentQuestionIndex "", ""⟩ := by
  have hstop : (stopListening s).responses[s.currentQuestionIndex]?
      = some ⟨s.questions.getD s.currentQuestionIndex "", s.currentAnswer⟩ := by
    rw [(stopListening_fields s).2.2.2]
    exact jsArraySet_getElem_self _ _ _ _
  rw [h3] at hstop
  rw [handleNext_eq]
  by_cases hc : s.currentQuestionIndex < s.questions.length - 1
  · rw [if_pos hc]
    exact hstop
  · rw [if_neg hc]
    rw [(finishInterview_fields env
      { stopListening s with hasSpoken := false, currentAnswer := "" }).2.1]
    exact hstop

/-- Claim C9 (witness). -/
theorem c9_witness :
    (handleNext envAuthU1 roomOneQuestion).responses[roomOneQuestion.currentQuestionIndex]?
        = some ⟨roomOneQuestion.questions.getD
            roomOneQuestion.currentQuestionIndex "", ""⟩ :=
  c9_commit_unconditional roomOneQuestion envAuthU1 rfl rfl rfl

/-- Claim C10.  The photo-capture variant's `progress` is total: on an empty
question list it returns 0, while the video-recording variant divides
unguarded and produces no finite number there; on a nonempty question list
the two computations agree. -/
theorem c10_progress_totality :
    (∀ i : Nat, progress 0 i = 0 ∧ progressVideoVariant 0 i = none) ∧
      (∀ (n i : Nat), 0 < n → progressVideoVariant n i = some (progress n i)) := by
  constructor
  · intro i
    constructor
    · simp [progress]
    · simp [progressVideoVariant, jsFiniteDiv]
  · intro n i hn
    have hne : (n : ℚ) ≠ 0 := Nat.cast_ne_zero.mpr (Nat.pos_iff_ne_zero.mp hn)
    simp [progressVideoVariant, jsFiniteDiv, progress, hne, hn]

/-- Claim C10 (witness). -/
theorem c10_witness :
    progress 0 7 = 0 ∧ progressVideoVariant 5 2 = some (progress 5 2) :=
  ⟨(c10_progress_totality.1 7).1, c10_progress_totality.2 5 2 (by decide)⟩
